import Mathlib

/-!
Verification of the administrative control surface of the stolon tool:
the `stolonctl` command dispatcher / payload resolver
(src/cmd/stolonctl/stolonctl.go) and the `stolonrpc` service supervisor
(src/cmd/stolonrpc/stolonrpc.go), shallowly embedded in Lean.

External I/O is made explicit: the filesystem is a partial map from file
names to byte contents, standard input is an optional byte sequence
(`none` models a read fault), and the external cluster client is a record
of result functions together with an explicit trace of the calls made.
-/

namespace Stolonctl

/-- A configuration payload: an opaque byte sequence, never interpreted. -/
abbrev Bytes := List Nat

/-- Errors produced by the trace package as used in stolonctl.go:
`trace.BadParameter(msg)` for validation errors and `trace.Wrap(err, ctx)`
for wrapped I/O or client errors (only the added context is modelled; the
wrapped cause is opaque). -/
inductive TraceErr where
  | badParameter (msg : String)
  | wrap (ctx : String)
  deriving DecidableEq, Repr

/-- Embedding of `readFile` (stolonctl.go lines 170-189).

`fs` models the filesystem seen by `ioutil.ReadFile` (`none` means the
file is missing or unreadable); `stdin` models the outcome of
`ioutil.ReadAll(os.Stdin)` (`none` means the read faulted). The Go
function returns the pair `([]byte, error)`; we keep that shape, with
`none` in the first component for Go's `nil` byte slice. -/
def readFile (fs : String → Option Bytes) (stdin : Option Bytes)
    (fileName : String) (readStdin : Bool) : Option Bytes × Option TraceErr :=
  if (readStdin && fileName != "") || (!readStdin && fileName == "") then
    (none, some (TraceErr.badParameter "need either file to read from or readStdin option"))
  else if readStdin then
    match stdin with
    | some config => (some config, none)
    | none => (none, some (TraceErr.wrap "cannot read config file from stdin"))
  else
    match fs fileName with
    | some config => (some config, none)
    | none => (none, some (TraceErr.wrap "can not read file"))

/-- Exactly one of the two payload sources is selected: the file path is
non-empty, or the stdin flag is set, but not both and not neither. -/
def exactlyOneSource (fileName : String) (readStdin : Bool) : Prop :=
  (fileName ≠ "" ∧ readStdin = false) ∨ (fileName = "" ∧ readStdin = true)

instance (fileName : String) (readStdin : Bool) :
    Decidable (exactlyOneSource fileName readStdin) := by
  unfold exactlyOneSource; infer_instance

end Stolonctl

namespace Stolonctl

/-- C1: the payload resolver `readFile` succeeds only when exactly one of
the file path being non-empty or the stdin flag being set holds; when
both are set or both are unset it returns the validation error
"need either file to read from or readStdin option" and no bytes. -/
theorem readFile_requires_exactly_one_source (fs : String → Option Bytes)
    (stdin : Option Bytes) (fileName : String) (readStdin : Bool) :
    ((readFile fs stdin fileName readStdin).2 = none →
      exactlyOneSource fileName readStdin) ∧
    (¬ exactlyOneSource fileName readStdin →
      readFile fs stdin fileName readStdin =
        (none, some (TraceErr.badParameter
          "need either file to read from or readStdin option"))) := by
  by_cases hf : fileName = "" <;> cases readStdin <;>
    simp [readFile, exactlyOneSource, hf]

/-- Witness for C1 at a concrete input: with both sources unset, the
resolver returns the validation error and no bytes. -/
theorem readFile_requires_exactly_one_source_witness :
    readFile (fun _ => none) none "" false =
      (none, some (TraceErr.badParameter
        "need either file to read from or readStdin option")) :=
  (readFile_requires_exactly_one_source (fun _ => none) none "" false).2
    (by decide)

/-- A call made to the external cluster client. -/
inductive ClientCall where
  | getClusterCall (name : String)
  | patchCall (name : String) (data : Bytes)
  | replaceCall (name : String) (data : Bytes)
  deriving DecidableEq, Repr

/-- The external cluster client, specified only by the results its
operations return: `none` is a nil error (success), `some e` a failure. -/
structure Client where
  getClusterErr : String → Option TraceErr
  patchConfigErr : Bytes → Option TraceErr
  replaceConfigErr : Bytes → Option TraceErr

/-- Embedding of `patchConfig` (stolonctl.go lines 142-154), instrumented
with the list of client calls it performs. `trace.Wrap(err)` without a
message is modelled as the identity on the error. On the success path of
`readFile` the data component is the `some` payload (`getD []` stands for
Go's nil slice in the unreachable `(nil, nil)` shape). -/
def patchConfig (clt : Client) (fs : String → Option Bytes) (stdin : Option Bytes)
    (clusterName patchFile : String) (readStdin : Bool) :
    Option TraceErr × List ClientCall :=
  match readFile fs stdin patchFile readStdin with
  | (_, some e) => (some e, [])
  | (data, none) =>
    match clt.getClusterErr clusterName with
    | some e => (some e, [ClientCall.getClusterCall clusterName])
    | none =>
      (clt.patchConfigErr (data.getD []),
        [ClientCall.getClusterCall clusterName,
         ClientCall.patchCall clusterName (data.getD [])])

/-- Embedding of `replaceConfig` (stolonctl.go lines 156-168), instrumented
the same way as `patchConfig`. -/
def replaceConfig (clt : Client) (fs : String → Option Bytes) (stdin : Option Bytes)
    (clusterName replaceFile : String) (readStdin : Bool) :
    Option TraceErr × List ClientCall :=
  match readFile fs stdin replaceFile readStdin with
  | (_, some e) => (some e, [])
  | (data, none) =>
    match clt.getClusterErr clusterName with
    | some e => (some e, [ClientCall.getClusterCall clusterName])
    | none =>
      (clt.replaceConfigErr (data.getD []),
        [ClientCall.getClusterCall clusterName,
         ClientCall.replaceCall clusterName (data.getD [])])

end Stolonctl

namespace Stolonctl

/-- C4: a readable file of N bytes, with the stdin flag off, resolves to
exactly the file's byte content, and `patchConfig` / `replaceConfig`
forward exactly those bytes unchanged to the client's PatchConfig /
ReplaceConfig operation. -/
theorem patch_replace_forward_exact_file_bytes (clt : Client)
    (fs : String → Option Bytes) (stdin : Option Bytes)
    (clusterName fileName : String) (content : Bytes)
    (hfile : fs fileName = some content) (hne : fileName ≠ "")
    (hcluster : clt.getClusterErr clusterName = none) :
    readFile fs stdin fileName false = (some content, none) ∧
    (patchConfig clt fs stdin clusterName fileName false).2 =
      [ClientCall.getClusterCall clusterName,
       ClientCall.patchCall clusterName content] ∧
    (replaceConfig clt fs stdin clusterName fileName false).2 =
      [ClientCall.getClusterCall clusterName,
       ClientCall.replaceCall clusterName content] := by
  have hr : readFile fs stdin fileName false = (some content, none) := by
    simp [readFile, hne, hfile]
  refine ⟨hr, ?_, ?_⟩ <;> simp [patchConfig, replaceConfig, hr, hcluster]

/-- Witness for C4: a concrete one-file filesystem and an always-succeeding
client, with the payload forwarded byte-for-byte. -/
theorem patch_replace_forward_exact_file_bytes_witness :
    readFile (fun n => if n = "./patch.json" then some [1, 2, 3] else none)
        none "./patch.json" false = (some [1, 2, 3], none) ∧
    (patchConfig ⟨fun _ => none, fun _ => none, fun _ => none⟩
        (fun n => if n = "./patch.json" then some [1, 2, 3] else none)
        none "mycluster" "./patch.json" false).2 =
      [ClientCall.getClusterCall "mycluster",
       ClientCall.patchCall "mycluster" [1, 2, 3]] ∧
    (replaceConfig ⟨fun _ => none, fun _ => none, fun _ => none⟩
        (fun n => if n = "./patch.json" then some [1, 2, 3] else none)
        none "mycluster" "./patch.json" false).2 =
      [ClientCall.getClusterCall "mycluster",
       ClientCall.replaceCall "mycluster" [1, 2, 3]] :=
  patch_replace_forward_exact_file_bytes
    ⟨fun _ => none, fun _ => none, fun _ => none⟩
    (fun n => if n = "./patch.json" then some [1, 2, 3] else none)
    none "mycluster" "./patch.json" [1, 2, 3]
    (by simp) (by decide) rfl

/-- C5: the same content resolves to byte-identical payloads whether it is
supplied on standard input or read from a file — the resolution result
depends only on the content, not on the channel. -/
theorem readFile_channel_independent (d : Bytes)
    (fsAny fs : String → Option Bytes) (stdinAny : Option Bytes)
    (fileName : String) (hne : fileName ≠ "") (hfile : fs fileName = some d) :
    readFile fsAny (some d) "" true = readFile fs stdinAny fileName false ∧
    readFile fsAny (some d) "" true = (some d, none) := by
  have h1 : readFile fsAny (some d) "" true = (some d, none) := by
    simp [readFile]
  have h2 : readFile fs stdinAny fileName false = (some d, none) := by
    simp [readFile, hne, hfile]
  exact ⟨h1.trans h2.symm, h1⟩

/-- Witness for C5 at a concrete document and file name. -/
theorem readFile_channel_independent_witness :
    readFile (fun _ => none) (some [10, 20]) "" true =
      readFile (fun n => if n = "doc" then some [10, 20] else none) none
        "doc" false ∧
    readFile (fun _ => none) (some [10, 20]) "" true = (some [10, 20], none) :=
  readFile_channel_independent [10, 20] (fun _ => none)
    (fun n => if n = "doc" then some [10, 20] else none) none "doc"
    (by decide) (by simp)

/-- C7: with neither a file path nor the stdin marker, `patchConfig` and
`replaceConfig` return the validation error and make no client call at
all — payload resolution happens before any client interaction. -/
theorem patch_replace_no_client_call_on_validation_error (clt : Client)
    (fs : String → Option Bytes) (stdin : Option Bytes) (clusterName : String) :
    patchConfig clt fs stdin clusterName "" false =
      (some (TraceErr.badParameter
        "need either file to read from or readStdin option"), []) ∧
    replaceConfig clt fs stdin clusterName "" false =
      (some (TraceErr.badParameter
        "need either file to read from or readStdin option"), []) := by
  constructor <;> rfl

/-- The stdin-marker test from `run` (stolonctl.go lines 112 and 114):
`os.Args[len(os.Args)-1] == "-"`. `os.Args` is never empty in Go (its
first element is the program name); the `none` branch is unreachable for
a real argument vector. -/
def lastArgIsDash (args : List String) : Bool :=
  match args.getLast? with
  | some a => a == "-"
  | none => false

/-- The `patch` dispatch arm of `run` (stolonctl.go line 112): it calls
`patchConfig` with the stdin flag computed from the argument vector. -/
def runPatch (clt : Client) (fs : String → Option Bytes) (stdin : Option Bytes)
    (args : List String) (clusterName patchFile : String) :
    Option TraceErr × List ClientCall :=
  patchConfig clt fs stdin clusterName patchFile (lastArgIsDash args)

/-- The `replace` dispatch arm of `run` (stolonctl.go line 114). -/
def runReplace (clt : Client) (fs : String → Option Bytes) (stdin : Option Bytes)
    (args : List String) (clusterName replaceFile : String) :
    Option TraceErr × List ClientCall :=
  replaceConfig clt fs stdin clusterName replaceFile (lastArgIsDash args)

/-- C8: the stdin flag passed by `run` to the payload resolver is true
exactly when the last element of the argument vector is the string "-";
a "-" anywhere earlier in the arguments (the arbitrary prefix `pre`)
never selects stdin. -/
theorem run_stdin_flag_iff_last_arg_dash (pre : List String) (x : String) :
    (lastArgIsDash (pre ++ [x]) = true ↔ x = "-") ∧
    (∀ clt fs stdin clusterName file,
      runPatch clt fs stdin (pre ++ [x]) clusterName file =
        patchConfig clt fs stdin clusterName file (x == "-") ∧
      runReplace clt fs stdin (pre ++ [x]) clusterName file =
        replaceConfig clt fs stdin clusterName file (x == "-")) := by
  have hl : (pre ++ [x]).getLast? = some x := by
    simp
  constructor
  · simp [lastArgIsDash, hl]
  · intro clt fs stdin clusterName file
    constructor <;> simp [runPatch, runReplace, lastArgIsDash, hl]

/-- Which logger initializer `run` invokes. -/
inductive LoggerInit where
  | debugLogger
  | cliLogger
  deriving DecidableEq, Repr

/-- Embedding of the logger-initialization prefix of `run` (stolonctl.go
lines 42-52 and line 98): the local `debug` is declared with its zero
value `false`, the flag is registered against it, and the if-statement
executes immediately — before `app.Parse` assigns the parsed flag value.
`parsedDebugFlag` is the value parsing would later store into `debug`;
the result is the logger chosen and the post-parse value of `debug`. -/
def runLoggerChoice (parsedDebugFlag : Bool) : LoggerInit × Bool :=
  let debugAtCheck := false
  let chosen :=
    if debugAtCheck then LoggerInit.debugLogger else LoggerInit.cliLogger
  (chosen, parsedDebugFlag)

/-- C10: for every invocation, logger initialization takes the non-debug
(CLI) path regardless of the `--debug` flag, because the `debug` variable
is inspected before the arguments are parsed; the debug-mode initializer
is never invoked. -/
theorem run_logger_always_cli (parsedDebugFlag : Bool) :
    (runLoggerChoice parsedDebugFlag).1 = LoggerInit.cliLogger ∧
    (runLoggerChoice parsedDebugFlag).1 ≠ LoggerInit.debugLogger := by
  constructor <;> simp [runLoggerChoice]

/-- Go fmt's default rendering of a byte slice (verb `%v`): the decimal
byte values, space-separated, inside square brackets. This is what
`fmt.Fprintln(os.Stdout, data)` writes when `data` is a `[]byte`. -/
def goByteSliceRendering (data : Bytes) : String :=
  "[" ++ String.intercalate " " (data.map toString) ++ "]"

/-- The text whose (ASCII) bytes are `data`: the indented-JSON rendering
that the spec expects the `config` command to print. -/
def bytesAsText (data : Bytes) : String :=
  String.mk (data.map Char.ofNat)

/-- Embedding of `printConfig` (stolonctl.go lines 124-140). The external
steps are parameters: `getClusterErr` is the failure of `clt.getCluster`,
`configErr` that of `cluster.Config()`, and `marshalled` the outcome of
`json.MarshalIndent(cfg, "", "\t")`. On the success path the code passes
the byte slice itself to `fmt.Fprintln(os.Stdout, data)`, so the line
written to stdout is the Go default rendering of the slice, not the text
the bytes encode. -/
def printConfig (getClusterErr : Option TraceErr) (configErr : Option TraceErr)
    (marshalled : Except String Bytes) : Option TraceErr × List String :=
  match getClusterErr with
  | some e => (some e, [])
  | none =>
    match configErr with
    | some e => (some e, [])
    | none =>
      match marshalled with
      | Except.error _ => (some (TraceErr.wrap "failed to marshal configuration"), [])
      | Except.ok data => (none, [goByteSliceRendering data])

/-- C6 (code bug): when the configuration marshals to the two bytes of the
JSON text "\x7b\x7d", the `config` command prints "[123 125]" — the Go
default rendering of the byte slice — and not the indented JSON text the
bytes encode, because `fmt.Fprintln` receives the `[]byte` itself. -/
theorem printConfig_prints_byte_values_not_text :
    (printConfig none none (Except.ok [123, 125])).2 = ["[123 125]"] ∧
    bytesAsText [123, 125] = "\x7b\x7d" ∧
    ("[123 125]" : String) ≠ "\x7b\x7d" := by
  refine ⟨rfl, by decide, by decide⟩

end Stolonctl

namespace Stolonrpc

/-- RPCServiceConfig (stolonrpc.go lines 27-33), sourced once at startup
from STOLONRPC_LOG_LEVEL, STOLONRPC_PORT, STOLONRPC_DB_HOST,
STOLONRPC_DB_PORT and STOLONRPC_DB_USERNAME. -/
structure Config where
  logLevel : String
  port : String
  databaseHost : String
  databasePort : String
  databaseUsername : String
  deriving DecidableEq, Repr

/-- Log severities recognized by the logging library's level lookup. -/
inductive Severity where
  | panicLevel
  | fatalLevel
  | errorLevel
  | warnLevel
  | infoLevel
  | debugLevel
  deriving DecidableEq, Repr

/-- The logging library's ParseLevel (external collaborator) on an
already-lowercased string: it recognizes exactly panic, fatal, error,
warn, warning, info and debug, and fails on anything else. -/
def parseLevel (lvl : String) : Option Severity :=
  if lvl == "panic" then some Severity.panicLevel
  else if lvl == "fatal" then some Severity.fatalLevel
  else if lvl == "error" then some Severity.errorLevel
  else if lvl == "warn" then some Severity.warnLevel
  else if lvl == "warning" then some Severity.warnLevel
  else if lvl == "info" then some Severity.infoLevel
  else if lvl == "debug" then some Severity.debugLevel
  else none

/-- ASCII lowercasing, character by character — the behavior of
`strings.ToLower` on the ASCII severity names involved here. -/
def toLowerAscii (s : String) : String :=
  String.mk (s.data.map Char.toLower)

/-- Embedding of `setupLogging` (stolonrpc.go lines 43-58): lowercase the
configured level and parse it; `none` is the error return for an
unrecognized severity, `some sev` the success return after the logger is
configured at `sev`. -/
def setupLogging (level : String) : Option Severity :=
  parseLevel (toLowerAscii level)

/-- How the startup portion of stolonrpc `main` can end up. -/
inductive StartupResult where
  | nilConfigCrash
  | listenerRunning (setupLoggingFailed : Bool)
  deriving DecidableEq, Repr

/-- Embedding of the startup sequence of stolonrpc `main` (lines 60-91).
`configRes` is the outcome of `GetConfig()` (`none` means envconfig
failed and `GetConfig` returned a nil Config with an error). On an error
from `GetConfig` or from `setupLogging`, main evaluates `trace.Wrap(err)`
and discards the result without returning, so: a failed `GetConfig`
leads to a nil-pointer dereference when `c.LogLevel` is read
(`nilConfigCrash`), and a failed `setupLogging` is ignored — the RPC
endpoint is still constructed at /rpc and the listener still launched
(`listenerRunning` with the dropped failure recorded). -/
def rpcStartup (configRes : Option Config) : StartupResult :=
  match configRes with
  | none => StartupResult.nilConfigCrash
  | some c => StartupResult.listenerRunning (setupLogging c.logLevel).isNone

/-- C2 (code bug): with a well-formed environment whose log severity
"verbose" is unrecognized, startup does not abort: the endpoint is
constructed and the listener launched anyway, the `setupLogging` error
having been wrapped and dropped at stolonrpc.go lines 66-68. -/
theorem rpcStartup_ignores_bad_severity :
    rpcStartup (some ⟨"verbose", "8080", "localhost", "5432", "postgres"⟩) =
      StartupResult.listenerRunning true := by
  decide

/-- Signals registered with signal.Notify (stolonrpc.go line 94). -/
inductive Sig where
  | sigint
  | sigterm
  deriving DecidableEq, Repr

/-- An event the supervision loop's select can receive: a value from the
listener-fault channel `errChan` (of Go type `chan error`, so a nil error
value is representable) or an OS signal from `signalChan`. -/
inductive SupEvent where
  | fault (e : Option String)
  | signal (s : Sig)
  deriving DecidableEq, Repr

/-- How the supervised process terminates. -/
inductive SupOutcome where
  | fatalExit (e : String)
  | cleanExit (s : Sig)
  deriving DecidableEq, Repr

/-- Embedding of the supervision loop (stolonrpc.go lines 95-105), run on
the events in arrival order: a non-nil error received from `errChan` ends
the process fatally via `log.Fatal` (non-zero exit); a nil error fails
the `if err != nil` test and the loop re-enters the select; a signal is
logged and ends the process with `os.Exit(0)`. `none` means no event
ended the loop, which keeps blocking. -/
def superviseLoop : List SupEvent → Option SupOutcome
  | [] => none
  | SupEvent.fault none :: rest => superviseLoop rest
  | SupEvent.fault (some e) :: _ => some (SupOutcome.fatalExit e)
  | SupEvent.signal s :: _ => some (SupOutcome.cleanExit s)

/-- The only send into `errChan` (stolonrpc.go lines 88-91): the listener
goroutine delivers the return value of `http.ListenAndServe`, which
returns only on failure, with a non-nil error. -/
def listenerFault (e : String) : SupEvent :=
  SupEvent.fault (some e)

/-- C3: if a listener fault arrives first, the process terminates fatally
and no later event — in particular nothing on the signal channel — is
consulted (the result is independent of `rest`); if a termination signal
arrives first, the process logs it and exits 0; the two outcomes are
mutually exclusive, and the loop, being a function, yields at most one
outcome per event history. -/
theorem superviseLoop_first_event_decides (e : String) (s : Sig)
    (rest : List SupEvent) :
    superviseLoop (listenerFault e :: rest) = some (SupOutcome.fatalExit e) ∧
    superviseLoop (SupEvent.signal s :: rest) = some (SupOutcome.cleanExit s) ∧
    (∀ e' s', SupOutcome.fatalExit e' ≠ SupOutcome.cleanExit s') := by
  refine ⟨rfl, rfl, ?_⟩
  intro e' s' h
  exact SupOutcome.noConfusion h

/-- C9: a nil error value on the fault channel does not terminate the
loop — it continues exactly as if the event had not happened — and any
terminating outcome comes either from a non-nil fault value (fatal) or
from a received signal (exit 0) present in the event history. -/
theorem superviseLoop_skips_nil_fault (rest : List SupEvent) :
    superviseLoop (SupEvent.fault none :: rest) = superviseLoop rest ∧
    (∀ evs e, superviseLoop evs = some (SupOutcome.fatalExit e) →
      SupEvent.fault (some e) ∈ evs) ∧
    (∀ evs s, superviseLoop evs = some (SupOutcome.cleanExit s) →
      SupEvent.signal s ∈ evs) := by
  refine ⟨rfl, ?_, ?_⟩
  · intro evs e
    induction evs with
    | nil => simp [superviseLoop]
    | cons ev tl ih =>
      cases ev with
      | fault oe =>
        cases oe with
        | none =>
          intro h
          simp [superviseLoop] at h
          exact List.mem_cons_of_mem _ (ih h)
        | some e' =>
          intro h
          simp [superviseLoop] at h
          simp [h]
      | signal s' =>
        intro h
        simp [superviseLoop] at h
  · intro evs s
    induction evs with
    | nil => simp [superviseLoop]
    | cons ev tl ih =>
      cases ev with
      | fault oe =>
        cases oe with
        | none =>
          intro h
          simp [superviseLoop] at h
          exact List.mem_cons_of_mem _ (ih h)
        | some e' =>
          intro h
          simp [superviseLoop] at h
      | signal s' =>
        intro h
        simp [superviseLoop] at h
        simp [h]

/-- Witness for C9: a nil fault followed by SIGTERM ends the process with
exit code 0, and the deciding signal indeed occurs in the history. -/
theorem superviseLoop_skips_nil_fault_witness :
    SupEvent.signal Sig.sigterm ∈
      [SupEvent.fault none, SupEvent.signal Sig.sigterm] :=
  (superviseLoop_skips_nil_fault []).2.2
    [SupEvent.fault none, SupEvent.signal Sig.sigterm] Sig.sigterm rfl

end Stolonrpc
